import Mathlib

/-!
Verification development for the Metron comic-metadata talker plugin.

The repository contains several successive rewrites of the same talker.  The
definitions below are shallow embeddings of the Python sources:

* `src/metron_talker/metron.py` — class `MetronTalker` (the newest rewrite);
* `src/metron.py`               — class `MetronTalkerExt` (an older rewrite);
* `src/metron/metron.py`        — class `MetronTalkerExt` (mokkari-based rewrite).

Python dicts with optional keys (`TypedDict, total=False`) are modelled as
structures with `Option` fields; `d.get(k)` is the field itself, and a direct
`d[k]` access (which the source only performs on keys it assumes present) is
modelled with `Option.getD`.  Python truthiness of a string/int option is
`truthyOptStr` / `truthyOptInt`.  External collaborators (the HTTP transport,
`comicapi.utils`, the fuzzy matcher `titles_match`, the cache backend) are
passed in as function parameters, so every theorem quantifies over their
behaviour.  Unbounded `while` loops are given an explicit fuel argument.
-/

namespace Metron

/-- Python truthiness of an optional string: `None` and `""` are falsy. -/
def truthyOptStr : Option String → Bool
  | some s => s != ""
  | none => false

/-- Python truthiness of an optional int: `None` and `0` are falsy. -/
def truthyOptInt : Option Int → Bool
  | some n => n != 0
  | none => false

/-- The `MetSeriesType` TypedDict of `src/metron_talker/metron.py`: a series
type code with its upstream display name. -/
structure MetSeriesTypeRec where
  id : Int := 0
  name : String := ""
deriving DecidableEq

/-- The `MetShortPub` TypedDict: a publisher reference. -/
structure MetShortPub where
  id : Int := 0
  name : String := ""
deriving DecidableEq

/-- The `MetShortImp` TypedDict: an imprint reference. -/
structure MetShortImp where
  id : Int := 0
  name : String := ""
deriving DecidableEq

/-- The `MetGenre` TypedDict. -/
structure MetGenre where
  id : Int := 0
  name : String := ""
deriving DecidableEq

/-- The `MetAssociated` TypedDict: an associated-series reference, whose
`series` field is reused by the source to smuggle a cover-image URL under
id `-999`. -/
structure MetAssociated where
  id : Int := 0
  series : String := ""
deriving DecidableEq

/-- The `MetRating` TypedDict. -/
structure MetRating where
  id : Int := 0
  name : String := ""
deriving DecidableEq

/-- The `MetRole` TypedDict: a creator role. -/
structure MetRole where
  id : Int := 0
  name : String := ""
deriving DecidableEq

/-- The `MetCredit` TypedDict: a creator together with a (possibly empty)
list of roles. -/
structure MetCredit where
  id : Int := 0
  creator : String := ""
  role : List MetRole := []
deriving DecidableEq

/-- The `MetVariant` TypedDict (only the fields the talker reads). -/
structure MetVariant where
  name : String := ""
  image : String := ""
deriving DecidableEq

/-- A named record (used for `MetArc`, `MetCharacter`, `MetTeam`, of which the
talker only ever reads the `name` key). -/
structure MetNamed where
  id : Int := 0
  name : String := ""
deriving DecidableEq

/-- The `MetSeries` TypedDict of `src/metron_talker/metron.py`
(`total=False`, so every key is optional).  Only the keys that the embedded
functions read are modelled; the remaining keys (`sort_name`, `status`,
`cv_id`, `gcd_id`, `resource_url`, `modified`, ...) are never accessed by any
embedded code path. -/
structure MetSeries where
  id : Option Int := none
  name : Option String := none
  series : Option String := none
  volume : Option Int := none
  series_type : Option MetSeriesTypeRec := none
  publisher : Option MetShortPub := none
  year_began : Option Int := none
  issue_count : Option Int := none
  genres : List MetGenre := []
  associated : List MetAssociated := []
deriving DecidableEq

/-- A page of the `series/` list endpoint: the `count` and `results` keys of
`MetResult[list[MetSeries]]`. -/
structure SeriesPage where
  count : Nat := 0
  results : List MetSeries := []
deriving DecidableEq

/-- The `ComicSeries` record of `comictalker.resulttypes` that
`_format_search_results` produces (field for field). -/
structure ComicSeries where
  aliases : List String := []
  count_of_issues : Option Int := none
  count_of_volumes : Option Int := none
  description : String := ""
  id : String := ""
  image_url : String := ""
  name : String := ""
  publisher : Option String := none
  start_year : Option Int := none
  format : Option String := none
deriving DecidableEq

/-- Mirrors `re.split(r"\(\d\x7b4\x7d\)$", s)[0].strip()` from
`MetronTalker._format_search_results`: if `s` ends in a parenthesized
four-digit year, drop that suffix, then strip surrounding whitespace. -/
def stripYearSuffix (s : String) : String :=
  let t := s.takeRight 6
  if t.length == 6 && t.front == Char.ofNat 40 && t.back == Char.ofNat 41
      && ((t.drop 1).take 4).all Char.isDigit then
    (s.dropRight 6).trim
  else
    s.trim

/-- Embedding of `MetronTalker._format_search_results`
(`src/metron_talker/metron.py` lines 801-840): flattens each raw series record
into a `ComicSeries`, deriving the display name from `record["series"]` (year
suffix stripped) when the detail-shape `name` key is absent, and recovering a
cover image smuggled in `associated` under id `-999`. -/
def formatSearchResults (searchResults : List MetSeries) : List ComicSeries :=
  searchResults.map fun record =>
    let namePub : String × Option String :=
      if truthyOptStr record.name then
        (record.name.getD "",
          match record.publisher with
          | some p => some p.name
          | none => none)
      else
        (stripYearSuffix (record.series.getD ""), none)
    let img := record.associated.foldl
      (fun img assoc => if assoc.id == -999 then assoc.series else img) ""
    { aliases := []
      count_of_issues := record.issue_count
      count_of_volumes := none
      description := ""
      id := toString (record.id.getD 0)
      image_url := img
      name := namePub.1
      publisher := namePub.2
      start_year := record.year_began
      format := none }

/-- The mutable state of the `while` loop in `search_for_series`:
the accumulated `search_results`, `current_result_count`, `page`, and two
instrumentation counters (number of HTTP page requests issued and number of
pages run through the similarity test). -/
structure SearchState where
  acc : List MetSeries := []
  current : Nat := 0
  page : Nat := 0
  requests : Nat := 0
  simChecks : Nat := 0
deriving DecidableEq

/-- The `while current_result_count < met_response["count"]` loop of
`MetronTalker.search_for_series` (`src/metron_talker/metron.py` lines
514-539; the loop in `MetronTalkerExt.search_for_series` of `src/metron.py`
lines 352-375 is identical).  `resp` is the most recent page response — note
that the loop bound is the (uncapped) `count` of that response, not the
`total_result_count = min(count, 500)` computed before the loop.  `tm` is the
external `comicapi.utils.titles_match`; a page whose results are scanned by
the threshold test bumps `simChecks`, and any entry failing the test breaks
out of the loop (after that page's results were already appended). -/
def searchLoop (tm : String → String → Nat → Bool) (q : String) (literal : Bool)
    (thresh : Nat) (getPage : Nat → SeriesPage) :
    Nat → SeriesPage → SearchState → SearchState
  | 0, _, st => st
  | fuel + 1, resp, st =>
    if st.current < resp.count then
      if literal then
        let resp2 := getPage (st.page + 1)
        searchLoop tm q literal thresh getPage fuel resp2
          { acc := st.acc ++ resp2.results
            current := st.current + resp2.results.length
            page := st.page + 1
            requests := st.requests + 1
            simChecks := st.simChecks }
      else
        if resp.results.any (fun s => !(tm q (s.series.getD "") thresh)) then
          { st with simChecks := st.simChecks + 1 }
        else
          let resp2 := getPage (st.page + 1)
          searchLoop tm q literal thresh getPage fuel resp2
            { acc := st.acc ++ resp2.results
              current := st.current + resp2.results.length
              page := st.page + 1
              requests := st.requests + 1
              simChecks := st.simChecks + 1 }
    else
      st

/-- Everything `search_for_series` produces: the accumulated raw records, the
formatted return value, the raw records written back to the search cache (the
source caches even literal searches), the number of page requests, the number
of pages run through the similarity test, and the
`total_result_count = min(count, 500)` value that the source computes for
progress reporting. -/
structure SearchOutcome where
  results : List MetSeries
  formatted : List ComicSeries
  cacheWrite : Option (List MetSeries)
  requests : Nat
  simChecks : Nat
  cappedTotal : Nat
deriving DecidableEq

/-- The online (cache-miss) part of `MetronTalker.search_for_series`: fetch
page 1, compute `total_result_count = min(count, 500)` (used only for
progress reporting), and run the pagination loop. -/
def searchOnline (tm : String → String → Nat → Bool)
    (getPage : Nat → SeriesPage) (literal : Bool) (searchSeriesName : String)
    (seriesMatchThresh : Nat) (fuel : Nat) : SearchOutcome :=
  let r1 := getPage 1
  let total := min r1.count 500
  let st := searchLoop tm searchSeriesName literal seriesMatchThresh getPage fuel r1
    { acc := r1.results
      current := r1.results.length
      page := 1
      requests := 1
      simChecks := 0 }
  { results := st.acc
    formatted := formatSearchResults st.acc
    cacheWrite := some st.acc
    requests := st.requests
    simChecks := st.simChecks
    cappedTotal := total }

/-- Embedding of `MetronTalker.search_for_series`
(`src/metron_talker/metron.py` lines 456-553; `MetronTalkerExt` in
`src/metron.py` lines 300-384 has the same structure).  `searchSeriesName` is
the already-sanitized query (`_sanitize_title` applies unicode normalization,
an external concern), `cachedSearch` is the `ComicCacher` hit for the query,
and `getPage p` is the upstream response for page `p` of the `series/`
endpoint.  A non-literal, non-refresh call with a non-empty cache hit returns
the formatted cache without any request; otherwise the online pagination
path runs. -/
def search_for_series (tm : String → String → Nat → Bool)
    (getPage : Nat → SeriesPage) (cachedSearch : List MetSeries)
    (refreshCache literal : Bool) (searchSeriesName : String)
    (seriesMatchThresh : Nat) (fuel : Nat) : SearchOutcome :=
  if !refreshCache && !literal && cachedSearch.length > 0 then
    { results := cachedSearch
      formatted := formatSearchResults cachedSearch
      cacheWrite := none
      requests := 0
      simChecks := 0
      cappedTotal := 0 }
  else
    searchOnline tm getPage literal searchSeriesName seriesMatchThresh fuel

/-- A page oracle reporting an upstream total of 600 and returning 100
matching records on every page. -/
def sixHundredPage (_p : Nat) : SeriesPage :=
  { count := 600
    results := List.replicate 100 { id := some 1, series := some "batman" } }

/-- Page 1 of the C2 scenario: 20 results, all titled like the query. -/
def pageBatman1 : SeriesPage :=
  { count := 40
    results := List.replicate 20 { id := some 1, series := some "batman" } }

/-- Page 2 of the C2 scenario: a single result that fails the threshold. -/
def pageBatman2 : SeriesPage :=
  { count := 40, results := [{ id := some 2, series := some "robin" }] }

/-- The page oracle of the C2 scenario. -/
def batmanPages (p : Nat) : SeriesPage :=
  if p == 1 then pageBatman1 else if p == 2 then pageBatman2 else { count := 40 }

/-- A concrete stand-in for `titles_match` that accepts exactly the titles
equal to the query. -/
def eqTm : String → String → Nat → Bool := fun q s _ => q == s

/-- In literal mode the loop never runs the similarity test: `simChecks` is
left untouched no matter how the loop unwinds. -/
theorem searchLoop_literal_simChecks (tm : String → String → Nat → Bool)
    (q : String) (thresh : Nat) (getPage : Nat → SeriesPage) :
    ∀ (fuel : Nat) (resp : SeriesPage) (st : SearchState),
      (searchLoop tm q true thresh getPage fuel resp st).simChecks = st.simChecks := by
  intro fuel
  induction fuel with
  | zero => intro resp st; rfl
  | succ n ih =>
    intro resp st
    rw [searchLoop]
    by_cases h : st.current < resp.count
    · simp only [h, if_true, if_pos]
      exact ih _ _
    · simp only [h, if_false]

set_option maxRecDepth 10000 in
/-- C1: the spec says a non-literal search issues at most 5 page requests
(at most 500 accumulated results) regardless of the upstream-reported total,
and the source computes exactly that cap
(`max_results = 500  # 5 pages`, `total_result_count = min(...)`) — but its
loop condition compares against the uncapped `met_response["count"]`, so with
an upstream total of 600 and every title passing the threshold the code
issues 6 page requests and accumulates 600 results. -/
theorem search_for_series_exceeds_page_cap :
    (search_for_series (fun _ _ _ => true) sixHundredPage [] false false
        "batman" 90 20).requests = 6
    ∧ (search_for_series (fun _ _ _ => true) sixHundredPage [] false false
        "batman" 90 20).results.length = 600
    ∧ (search_for_series (fun _ _ _ => true) sixHundredPage [] false false
        "batman" 90 20).cappedTotal = 500 := by
  refine ⟨?_, ?_, ?_⟩ <;> rfl

set_option maxRecDepth 10000 in
/-- C2 counterexample: in the scenario "page 1 all above threshold, page 2
contains a failing entry" the paginator does issue exactly 2 requests, but
the returned sequence is page 1's records *followed by page 2's records* —
page 2 is appended to `search_results` before its entries are run through the
threshold test, so the claim that only page 1's records are returned is
false. -/
theorem search_two_pages_returns_failing_page_too :
    (search_for_series eqTm batmanPages [] false false "batman" 90 20).requests = 2
    ∧ (search_for_series eqTm batmanPages [] false false "batman" 90 20).results
        = pageBatman1.results ++ pageBatman2.results
    ∧ (search_for_series eqTm batmanPages [] false false "batman" 90 20).results
        ≠ pageBatman1.results := by
  refine ⟨rfl, rfl, ?_⟩
  decide

/-- C2 amended: for a non-literal cache-miss search in which every page-1
entry passes the similarity threshold, page 1 does not exhaust the reported
total, and page 2 contains an entry below the threshold, the paginator issues
exactly 2 page requests and returns page 1's records followed by page 2's
records (the failing page is appended before the early-stop check). -/
theorem search_two_pages_appends_before_stop (tm : String → String → Nat → Bool)
    (getPage : Nat → SeriesPage) (q : String) (thresh fuel : Nat)
    (hfuel : 2 ≤ fuel)
    (hpass : ∀ s ∈ (getPage 1).results, tm q (s.series.getD "") thresh = true)
    (hmore : (getPage 1).results.length < (getPage 1).count)
    (hfail : ∃ s ∈ (getPage 2).results, tm q (s.series.getD "") thresh = false) :
    (search_for_series tm getPage [] false false q thresh fuel).requests = 2
    ∧ (search_for_series tm getPage [] false false q thresh fuel).results
        = (getPage 1).results ++ (getPage 2).results := by
  obtain ⟨k, rfl⟩ : ∃ k, fuel = k + 2 := ⟨fuel - 2, by omega⟩
  have hanyone : (getPage 1).results.any
      (fun s => !(tm q (s.series.getD "") thresh)) = false := by
    simp only [List.any_eq_false, Bool.not_eq_true]
    intro s hs
    simp [hpass s hs]
  have hanytwo : (getPage 2).results.any
      (fun s => !(tm q (s.series.getD "") thresh)) = true := by
    obtain ⟨s, hs, hfs⟩ := hfail
    exact List.any_eq_true.mpr ⟨s, hs, by simp [hfs]⟩
  have hrw : search_for_series tm getPage [] false false q thresh (k + 2)
      = searchOnline tm getPage false q thresh (k + 2) := rfl
  rw [hrw]
  simp only [searchOnline]
  rw [searchLoop]
  simp only [hmore, if_true, if_false, Bool.false_eq_true, hanyone]
  rw [searchLoop]
  by_cases h2 : (getPage 1).results.length + (getPage 2).results.length < (getPage 2).count
  · simp [h2, hanytwo]
  · simp [h2]

/-- C2 amended, witness: the amended statement evaluated on the concrete
Batman scenario. -/
theorem search_two_pages_appends_before_stop_witness :
    (search_for_series eqTm batmanPages [] false false "batman" 90 20).requests = 2
    ∧ (search_for_series eqTm batmanPages [] false false "batman" 90 20).results
        = (batmanPages 1).results ++ (batmanPages 2).results :=
  search_two_pages_appends_before_stop eqTm batmanPages "batman" 90 20
    (by decide) (by decide) (by decide) (by decide)

set_option maxRecDepth 10000 in
/-- C8: a literal search never runs the similarity test (first conjunct, for
every transport, cache state and fuel), but pagination does not stop at the
capped total either: the loop bound is the uncapped upstream `count`, so a
literal search against a reported total of 600 issues 6 page requests and
accumulates 600 results — even under a `titles_match` that rejects every
title. -/
theorem search_literal_never_checks_similarity :
    (∀ (tm : String → String → Nat → Bool) (getPage : Nat → SeriesPage)
        (cachedSearch : List MetSeries) (refreshCache : Bool) (q : String)
        (thresh fuel : Nat),
      (search_for_series tm getPage cachedSearch refreshCache true q thresh
          fuel).simChecks = 0)
    ∧ (search_for_series (fun _ _ _ => false) sixHundredPage [] false true
        "batman" 90 20).requests = 6
    ∧ (search_for_series (fun _ _ _ => false) sixHundredPage [] false true
        "batman" 90 20).results.length = 600 := by
  refine ⟨?_, rfl, rfl⟩
  intro tm getPage cachedSearch refreshCache q thresh fuel
  have hrw : search_for_series tm getPage cachedSearch refreshCache true q thresh fuel
      = searchOnline tm getPage true q thresh fuel := by
    simp [search_for_series]
  rw [hrw]
  simp only [searchOnline]
  exact searchLoop_literal_simChecks tm q thresh getPage fuel _ _

/-- The body of one HTTP attempt as seen by `_get_url_content`: either a
response, or one of the transport exceptions that `requests` can raise.
`contentType` is the first semicolon-separated component of the response's
`Content-Type` header (the source computes it as
`resp.headers["Content-Type"].split(";")[0]`), and `jsonOk` says whether
`resp.json()` decodes without raising. -/
inductive HttpAttempt where
  | response (status : Nat) (contentType : String) (jsonOk : Bool) (body : String)
  | timeout
  | requestException (msg : String)
deriving DecidableEq

/-- The error taxonomy of `_get_url_content`: `TalkerNetworkError(name, code)`
(code 0 = generic/html, 1 = auth, 4 = timeout, 5 = exhausted retries) and
`TalkerDataError(name, 2)` for undecodable JSON. -/
inductive TalkerError where
  | networkError (code : Nat)
  | dataError (code : Nat)
deriving DecidableEq

/-- What a call to `_get_url_content` produces: the decoded JSON body or the
raised error, plus the number of HTTP requests issued and the number of
`time.sleep(1)` calls performed. -/
structure UrlOutcome where
  result : Except TalkerError String
  requests : Nat
  sleeps : Nat

/-- The `for tries in range(3)` loop of `MetronTalker._get_url_content`
(`src/metron_talker/metron.py` lines 741-780; `MetronTalkerExt._get_url_content`
of `src/metron.py` lines 491-529 is identical, including its comment
"if there is a 500 error, try a few more times before giving up").
`attempts i` is the outcome of the `i`-th `requests.get`.  The branch
structure mirrors the source exactly: a 200 returns the JSON body (or raises
on a text/html content type or a JSON decode failure); a 500 sleeps one
second; 403 and 401 raise the auth error; and the `else` attached to the
`if resp.status_code == 401` check breaks out of the loop for every status
that is not 200, 403 or 401 — including 500 — after which
`TalkerNetworkError(self.name, 5)` is raised. -/
def getUrlLoop (attempts : Nat → HttpAttempt) :
    Nat → Nat → Nat → Nat → UrlOutcome
  | 0, _, reqs, sleeps => ⟨.error (.networkError 5), reqs, sleeps⟩
  | _remaining + 1, i, reqs, sleeps =>
    match attempts i with
    | .timeout => ⟨.error (.networkError 4), reqs + 1, sleeps⟩
    | .requestException _ => ⟨.error (.networkError 0), reqs + 1, sleeps⟩
    | .response status contentType jsonOk body =>
      if status == 200 then
        if contentType == "text/html" then
          ⟨.error (.networkError 0), reqs + 1, sleeps⟩
        else if jsonOk then
          ⟨.ok body, reqs + 1, sleeps⟩
        else
          ⟨.error (.dataError 2), reqs + 1, sleeps⟩
      else
        let sleeps := if status == 500 then sleeps + 1 else sleeps
        if status == 403 then
          ⟨.error (.networkError 1), reqs + 1, sleeps⟩
        else if status == 401 then
          ⟨.error (.networkError 1), reqs + 1, sleeps⟩
        else
          ⟨.error (.networkError 5), reqs + 1, sleeps⟩

/-- Embedding of `MetronTalker._get_url_content`: run the retry loop with a
budget of 3 attempts. -/
def getUrlContent (attempts : Nat → HttpAttempt) : UrlOutcome :=
  getUrlLoop attempts 3 0 0 0

/-- A plain 500 response. -/
def resp500 : HttpAttempt := .response 500 "application/json" true "oops"

/-- A successful JSON 200 response. -/
def resp200 : HttpAttempt := .response 200 "application/json" true "body"

/-- The C3 scenario: two 500 responses followed by a 200. -/
def attempts500x2 : Nat → HttpAttempt
  | 0 => resp500
  | 1 => resp500
  | _ => resp200

/-- C3: the spec (and the source's own comment "if there is a 500 error, try
a few more times before giving up") says two 500s followed by a 200 succeed
after two 1-second sleeps.  The code never retries: on a 500 it sleeps once
and then hits the `else: break` that is attached to the
`if resp.status_code == 401` check, leaving the loop after a single request
and raising `TalkerNetworkError(self.name, 5)`.  The successful third
response is never requested. -/
theorem getUrlContent_500_breaks_instead_of_retrying :
    getUrlContent attempts500x2
      = ⟨.error (.networkError 5), 1, 1⟩
    ∧ getUrlContent (fun _ => resp200) = ⟨.ok "body", 1, 0⟩ := by
  refine ⟨rfl, ?_⟩
  simp [getUrlContent, getUrlLoop, resp200]

/-- The retry loop can never issue a second request, whatever the attempt
outcomes: every branch of the loop body returns. -/
theorem getUrlLoop_single_request (attempts : Nat → HttpAttempt) :
    (getUrlContent attempts).requests ≤ 1 := by
  unfold getUrlContent
  rw [getUrlLoop]
  rcases attempts 0 with ⟨status, ct, ok, body⟩ | _ | msg
  · simp only
    by_cases h200 : (status == 200) = true <;> simp only [h200, if_true, if_false]
    · by_cases hct : (ct == "text/html") = true
        <;> by_cases hok : ok = true
        <;> simp [hct, hok]
    · by_cases h403 : (status == 403) = true <;> by_cases h401 : (status == 401) = true
        <;> simp [h403, h401]
  · simp
  · simp

/-- The `MetIssue` TypedDict of `src/metron_talker/metron.py`
(`total=False`).  Keys that every embedded code path accesses directly
(`id`, `number`, `series`) are modelled as plain fields; the rest are
`Option`/list fields (`none`/`[]` standing for an absent key — for list
fields an absent key and an empty list are indistinguishable to the source,
which only ever tests their truthiness and iterates).  Keys never read by
the embedded functions (`store_date`, `sku`, `page`, `cover_hash`, ...) are
omitted. -/
structure MetIssue where
  id : Int := 0
  publisher : Option MetShortPub := none
  imprint : Option MetShortImp := none
  series : MetSeries := {}
  number : String := ""
  title : Option String := none
  name : List String := []
  cover_date : Option String := none
  price : Option String := none
  rating : Option MetRating := none
  desc : Option String := none
  image : Option String := none
  arcs : List MetNamed := []
  credits : List MetCredit := []
  characters : List MetNamed := []
  teams : List MetNamed := []
  variants : List MetVariant := []
  resource_url : Option String := none
deriving DecidableEq

/-- A credit entry of `comicapi.genericmetadata.GenericMetadata`. -/
structure MDCredit where
  person : String := ""
  role : String := ""
  primary : Bool := false
deriving DecidableEq

/-- The fields of `comicapi.genericmetadata.GenericMetadata` that the talker
writes.  All fields default to the empty `GenericMetadata()` value.  The
comicapi `genres`/`characters`/`teams` fields are sets of strings; they are
modelled as insertion-ordered lists here (no embedded claim depends on set
semantics). -/
structure GenericMetadata where
  data_origin : Option (String × String) := none
  issue_id : Option Int := none
  issue : Option String := none
  series : Option String := none
  series_id : Option Int := none
  day : Option Int := none
  month : Option Int := none
  year : Option Int := none
  cover_image : Option String := none
  publisher : Option String := none
  imprint : Option String := none
  format : Option String := none
  issue_count : Option Int := none
  description : Option String := none
  genres : List String := []
  title : Option String := none
  maturity_rating : Option String := none
  web_links : List String := []
  alternate_images : List String := []
  characters : List String := []
  teams : List String := []
  story_arcs : List String := []
  credits : List MDCredit := []
  volume : Option Int := none
  price : Option Rat := none
deriving DecidableEq

/-- The external `comicapi` helpers the mapper calls, passed in as functions
so that every theorem quantifies over their behaviour: `utils.xlate` applied
to an int (`xlateInt`) or a string (`xlateStr`), the composition
`utils.xlate(IssueString(s).as_string())` (`xlateIssueString`),
`utils.xlate_int` (`xlateIntNum`), `utils.parse_date_str` returning the
(day, month, year) triple, `comicapi.utils.parse_url` with `none` standing
for a raised `LocationParseError`, and `utils.xlate_float`.  The defaults
are concrete sample behaviours used by closed evaluation theorems. -/
structure ComicApiCtx where
  xlateInt : Int → Option Int := fun n => some n
  xlateStr : String → Option String := fun s => if s == "" then none else some s
  xlateIssueString : String → Option String := fun s => if s == "" then none else some s
  xlateIntNum : Option Int → Option Int := fun n => n
  parseDateStr : String → Option Int × Option Int × Option Int := fun _ => (none, none, none)
  parseUrl : String → Option String := fun s => some s
  xlateFloat : String → Option Rat := fun _ => none

/-- The behaviour flags of the talker that the mapper consults
(`self.use_series_start_as_volume`, `self.use_ongoing_issue_count`,
`self.display_variants`), all defaulting to `False` as in `__init__`. -/
structure TalkerConfig where
  use_series_start_as_volume : Bool := false
  use_ongoing_issue_count : Bool := false
  display_variants : Bool := false
deriving DecidableEq

/-- The value of `MetronSeriesType.ongoing` in the source's Enum. -/
def metronSeriesTypeOngoing : Int := 1

/-- The value of `MetronSeriesType.trade_paperback` in the source's Enum. -/
def metronSeriesTypeTradePaperback : Int := 10

/-- Modelled from the external `comicapi.genericmetadata.GenericMetadata.add_credit`:
append the credit unless an entry with the same (person, role) pair already
exists, in which case only that entry's `primary` flag is updated (comicapi
compares the pair case-folded; the exact comparison used here coincides with
it on the inputs of every theorem below). -/
def addCredit : List MDCredit → String → String → Bool → List MDCredit
  | [], person, role, primary => [{ person := person, role := role, primary := primary }]
  | c :: rest, person, role, primary =>
    if c.person == person && c.role == role then
      { c with primary := primary } :: rest
    else
      c :: addCredit rest person role primary

/-- The credit loop of `MetronTalker._map_comic_issue_to_metadata`
(`src/metron_talker/metron.py` lines 1078-1084): for each person,
`roles = [role["name"] for role in person["role"]] if person["role"] else [""]`
— a creator with an empty role list still contributes one `add_credit` call
with an empty role string — then one `md.add_credit(person_name, role, False)`
per role. -/
def addCredits (init : List MDCredit) (credits : List MetCredit) : List MDCredit :=
  credits.foldl (fun acc person =>
    let personName := person.creator
    let roles := if person.role.isEmpty then [""] else person.role.map MetRole.name
    roles.foldl (fun acc2 role => addCredit acc2 personName role false) acc) init

/-- Embedding of `MetronTalker._map_comic_issue_to_metadata`
(`src/metron_talker/metron.py` lines 1000-1093).  The source assigns the
fields of a fresh `GenericMetadata` imperatively; here each field is the
expression the assignment sequence leaves it with.  Noteworthy source
behaviours preserved by the embedding: the `elif series["year_began"]` year
fallback is nested under `if issue.get("cover_date")` and can only be reached
when `issue["cover_date"]` is truthy and falsy at once; the local
`series_type` variable is initialised to `-1` and never reassigned, so the
"ongoing" test in the issue-count rule always compares `-1` with
`MetronSeriesType.ongoing.value`; and `md.format` copies the upstream
`series["series_type"].get("name")` verbatim. -/
def map_comic_issue_to_metadata (ctx : ComicApiCtx) (cfg : TalkerConfig)
    (issue : MetIssue) : GenericMetadata :=
  let series := issue.series
  let dmy : Option Int × Option Int × Option Int :=
    if truthyOptStr issue.cover_date then
      if (issue.cover_date.getD "") != "" then
        ctx.parseDateStr (issue.cover_date.getD "")
      else if truthyOptInt series.year_began then
        (none, none, ctx.xlateIntNum series.year_began)
      else (none, none, none)
    else (none, none, none)
  let series_type : Int := -1
  { data_origin := some ("metron", "Metron")
    issue_id := ctx.xlateInt issue.id
    issue := ctx.xlateIssueString issue.number
    series := ctx.xlateStr (series.name.getD "")
    series_id := if truthyOptInt series.id then ctx.xlateInt (series.id.getD 0) else none
    day := dmy.1
    month := dmy.2.1
    year := dmy.2.2
    cover_image := issue.image
    publisher :=
      match issue.publisher with
      | some p => ctx.xlateStr p.name
      | none => none
    imprint := issue.imprint.map MetShortImp.name
    format := series.series_type.map MetSeriesTypeRec.name
    issue_count :=
      if truthyOptInt series.issue_count then
        if series_type != metronSeriesTypeOngoing || cfg.use_ongoing_issue_count then
          ctx.xlateIntNum series.issue_count
        else none
      else none
    description := issue.desc
    genres := series.genres.map MetGenre.name
    title :=
      if !issue.name.isEmpty then some (String.intercalate "; " issue.name)
      else ctx.xlateStr (issue.title.getD "")
    maturity_rating :=
      match issue.rating with
      | some r => if r.name != "Unknown" then some r.name else none
      | none => none
    web_links :=
      if truthyOptStr issue.resource_url then
        match ctx.parseUrl (issue.resource_url.getD "") with
        | some link => [link]
        | none => []
      else []
    alternate_images := issue.variants.map MetVariant.image
    characters := issue.characters.map MetNamed.name
    teams := issue.teams.map MetNamed.name
    story_arcs := issue.arcs.map MetNamed.name
    credits := if issue.credits.isEmpty then [] else addCredits [] issue.credits
    volume :=
      if cfg.use_series_start_as_volume then series.year_began
      else ctx.xlateIntNum series.volume
    price := ctx.xlateFloat (issue.price.getD "") }

/-- The format-derivation chain of `MetronTalkerExt._map_comic_issue_to_metadata`
(`src/metron/metron.py` lines 530-544): sequential
`if series.series_type.id == k: md.format = ...` assignments, where the codes
5, 6, 8, 9 and 11 copy the upstream type name and code 10 (trade paperback)
assigns the fixed label "TPB".  `none` models a mokkari series object without
a `series_type` attribute (`hasattr(series, "series_type")` false). -/
def extMapFormat (seriesType : Option MetSeriesTypeRec) : Option String :=
  match seriesType with
  | none => none
  | some t =>
    let f0 : Option String := none
    let f1 := if t.id == 5 then some t.name else f0
    let f2 := if t.id == 6 then some t.name else f1
    let f3 := if t.id == 8 then some t.name else f2
    let f4 := if t.id == 9 then some t.name else f3
    let f5 := if t.id == 10 then some "TPB" else f4
    let f6 := if t.id == 11 then some t.name else f5
    f6

/-- The `Credit` record of `comictalker.resulttypes` produced by
`src/metron.py`. -/
structure CreditRec where
  name : String := ""
  role : String := ""
deriving DecidableEq

/-- The credit-extraction part of `MetronTalkerExt._format_issue_results`
(`src/metron.py` lines 600-604): `for person in record["credits"]: for role
in person["role"]: persons_list.append(Credit(...))`, guarded by the
truthiness of `record.get("credits")`.  A creator whose role list is empty
contributes nothing — the inner loop body never runs for it. -/
def formatIssueCredits (credits : List MetCredit) : List CreditRec :=
  if credits.isEmpty then []
  else
    credits.foldl (fun acc person =>
      acc ++ person.role.map (fun role => { name := person.creator, role := role.name })) []

/-- Adding a credit for a different person leaves the credits selected for
`c` unchanged. -/
theorem addCredit_filter_of_ne (c p r : String) (b : Bool) (hp : p ≠ c) :
    ∀ l : List MDCredit,
      (addCredit l p r b).filter (fun e => e.person == c)
        = l.filter (fun e => e.person == c) := by
  intro l
  induction l with
  | nil => simp [addCredit, List.filter_cons, hp]
  | cons e rest ih =>
    rw [addCredit]
    by_cases hm : (e.person == p && e.role == r) = true
    · have hep : e.person = p := by
        have h2 := (Bool.and_eq_true _ _).mp hm
        exact beq_iff_eq.mp h2.1
      have hec : (e.person == c) = false := beq_eq_false_iff_ne.mpr (hep ▸ hp)
      simp [hm, List.filter_cons, hec]
    · have hm2 : (e.person == p && e.role == r) = false := by
        simpa using hm
      by_cases hec : (e.person == c) = true
        <;> simp [hm2, List.filter_cons, hec, ih]

/-- Adding a credit for `c` to a list with no credit for `c` makes that
credit the only one selected for `c`. -/
theorem addCredit_filter_self (c r : String) (b : Bool) :
    ∀ l : List MDCredit, (∀ e ∈ l, e.person ≠ c) →
      (addCredit l c r b).filter (fun e => e.person == c)
        = [{ person := c, role := r, primary := b }] := by
  intro l
  induction l with
  | nil => intro _; simp [addCredit, List.filter_cons]
  | cons e rest ih =>
    intro h
    rw [addCredit]
    have hec : (e.person == c) = false :=
      beq_eq_false_iff_ne.mpr (h e (List.mem_cons_self e rest))
    simp only [hec, Bool.false_and, Bool.false_eq_true, if_false, List.filter_cons]
    exact ih (fun x hx => h x (List.mem_cons_of_mem e hx))

/-- Folding a person's whole role list through `addCredit` leaves the credits
selected for a different name `c` unchanged. -/
theorem rolesFold_filter_of_ne (c p : String) (hp : p ≠ c) :
    ∀ (roles : List String) (acc : List MDCredit),
      (roles.foldl (fun a role => addCredit a p role false) acc).filter
          (fun e => e.person == c)
        = acc.filter (fun e => e.person == c) := by
  intro roles
  induction roles with
  | nil => intro acc; rfl
  | cons r rs ih =>
    intro acc
    rw [List.foldl_cons, ih]
    exact addCredit_filter_of_ne c p r false hp acc

/-- Processing credit entries none of which belongs to `c` leaves the credits
selected for `c` unchanged. -/
theorem addCredits_filter_of_ne (c : String) :
    ∀ (creds : List MetCredit) (init : List MDCredit),
      (∀ p ∈ creds, p.creator ≠ c) →
      (addCredits init creds).filter (fun e => e.person == c)
        = init.filter (fun e => e.person == c) := by
  intro creds
  induction creds with
  | nil => intro init _; rfl
  | cons p ps ih =>
    intro init h
    have e1 : addCredits init (p :: ps)
        = addCredits ((if p.role.isEmpty then [""] else p.role.map MetRole.name).foldl
            (fun a role => addCredit a p.creator role false) init) ps := rfl
    rw [e1, ih _ (fun x hx => h x (List.mem_cons_of_mem p hx))]
    exact rolesFold_filter_of_ne c p.creator (h p (List.mem_cons_self p ps)) _ init

/-- `addCredits` splits over list append. -/
theorem addCredits_append (init : List MDCredit) (l1 l2 : List MetCredit) :
    addCredits init (l1 ++ l2) = addCredits (addCredits init l1) l2 := by
  unfold addCredits
  exact List.foldl_append _ _ _ _

/-- C6 amended: in the `MetronTalker` mapper
(`src/metron_talker/metron.py` lines 1078-1084) a creator listed once in the
issue's credits with an empty role list yields exactly one credit entry
carrying the empty string as its role — never zero entries.  (The older
`MetronTalkerExt._format_issue_results` of `src/metron.py` instead drops such
a creator entirely; see the counterexample.) -/
theorem mapper_empty_role_yields_one_credit (ctx : ComicApiCtx)
    (cfg : TalkerConfig) (issue : MetIssue) (c : String) (i : Int)
    (pre post : List MetCredit)
    (hsplit : issue.credits = pre ++ { id := i, creator := c, role := [] } :: post)
    (hpre : ∀ p ∈ pre, p.creator ≠ c) (hpost : ∀ p ∈ post, p.creator ≠ c) :
    (map_comic_issue_to_metadata ctx cfg issue).credits.filter
        (fun e => e.person == c)
      = [{ person := c, role := "", primary := false }] := by
  have hcred : (map_comic_issue_to_metadata ctx cfg issue).credits
      = if issue.credits.isEmpty then [] else addCredits [] issue.credits := rfl
  rw [hcred, hsplit]
  have hne : (pre ++ ({ id := i, creator := c, role := [] } : MetCredit) :: post).isEmpty
      = false := by
    simp [List.isEmpty_eq_false_iff_exists_mem]
  rw [hne]
  simp only [Bool.false_eq_true, if_false]
  rw [addCredits_append]
  have e2 : addCredits (addCredits [] pre)
        (({ id := i, creator := c, role := [] } : MetCredit) :: post)
      = addCredits (addCredit (addCredits [] pre) c "" false) post := rfl
  rw [e2, addCredits_filter_of_ne c post _ hpost]
  have hnoc : ∀ e ∈ addCredits [] pre, e.person ≠ c := by
    have hnil : (addCredits [] pre).filter (fun e => e.person == c) = [] := by
      rw [addCredits_filter_of_ne c pre [] hpre]
      rfl
    intro e he hec
    have : e ∈ (addCredits [] pre).filter (fun e => e.person == c) :=
      List.mem_filter.mpr ⟨he, by simp [hec]⟩
    rw [hnil] at this
    exact absurd this (List.not_mem_nil e)
  exact addCredit_filter_self c "" false _ hnoc

/-- An issue whose only credit is a creator with an empty role list. -/
def issueRolelessCredit : MetIssue :=
  { id := 3
    number := "1"
    series := { id := some 7, name := some "Watchmen" }
    credits := [{ id := 12, creator := "Alan Moore", role := [] }] }

/-- C6 amended, witness: the `MetronTalker` mapper applied to a concrete
issue whose single credit has an empty role list produces exactly one credit
for that creator, with the empty string as its role. -/
theorem mapper_empty_role_yields_one_credit_witness :
    (map_comic_issue_to_metadata {} {} issueRolelessCredit).credits.filter
        (fun e => e.person == "Alan Moore")
      = [{ person := "Alan Moore", role := "", primary := false }] :=
  mapper_empty_role_yields_one_credit {} {} issueRolelessCredit "Alan Moore" 12 [] []
    rfl (by simp) (by simp)

/-- C6 counterexample: the claim fails on
`MetronTalkerExt._format_issue_results` (`src/metron.py` lines 600-604),
one of the two mapping routines it cites: a creator with an empty role list
contributes zero credit entries there, because the `for role in
person["role"]` loop body never runs. -/
theorem formatIssueCredits_drops_roleless_creator :
    formatIssueCredits [{ id := 12, creator := "Alan Moore", role := [] }] = []
    ∧ ((formatIssueCredits [{ id := 12, creator := "Alan Moore", role := [] }]).filter
        (fun e => e.name == "Alan Moore")).length = 0 :=
  ⟨rfl, rfl⟩

/-- An issue belonging to a trade-paperback series (series-type code 10)
whose upstream type name is the spelled-out "Trade Paperback". -/
def issueTradePaperback : MetIssue :=
  { id := 1
    number := "1"
    series := { id := some 7, name := some "Blackest Night"
                series_type := some { id := 10, name := "Trade Paperback" } } }

/-- C5 counterexample: the `MetronTalker` mapper
(`src/metron_talker/metron.py` lines 1026-1028) has no trade-paperback rule
at all — `md.format` copies `series["series_type"].get("name")` verbatim, so
with upstream type name "Trade Paperback" the format label is not the fixed
"TPB" the claim requires. -/
theorem mapper_tpb_copies_upstream_name :
    (map_comic_issue_to_metadata {} {} issueTradePaperback).format
        = some "Trade Paperback"
    ∧ (map_comic_issue_to_metadata {} {} issueTradePaperback).format
        ≠ some "TPB" := by
  refine ⟨rfl, ?_⟩
  intro h
  rw [show (map_comic_issue_to_metadata {} {} issueTradePaperback).format
      = some "Trade Paperback" from rfl] at h
  simp at h

/-- C5 amended: the `MetronTalkerExt` mapper (`src/metron/metron.py` lines
530-544) does emit the fixed label "TPB" for series-type code 10, whatever
the upstream-supplied type name is; the newer `MetronTalker` mapper copies
the upstream name instead. -/
theorem extMapFormat_trade_paperback_fixed_label (name : String) :
    extMapFormat (some { id := 10, name := name }) = some "TPB" := rfl

/-- The day/month/year triple the mapper produces, written out as the
conditional expression the assignment sequence of the source denotes. -/
theorem mapper_dmy_eq (ctx : ComicApiCtx) (cfg : TalkerConfig)
    (issue : MetIssue) :
    ((map_comic_issue_to_metadata ctx cfg issue).day,
      (map_comic_issue_to_metadata ctx cfg issue).month,
      (map_comic_issue_to_metadata ctx cfg issue).year)
    = (if truthyOptStr issue.cover_date then
        (if (issue.cover_date.getD "") != "" then
          ctx.parseDateStr (issue.cover_date.getD "")
        else if truthyOptInt issue.series.year_began then
          ((none, none, ctx.xlateIntNum issue.series.year_began) :
            Option Int × Option Int × Option Int)
        else (none, none, none))
      else (none, none, none)) := rfl

/-- C7: the year fallback of the `MetronTalker` mapper is unreachable.  When
the issue's cover date is absent (or empty), day, month and year are all left
unset — the `elif series["year_began"]` branch sits under
`if issue.get("cover_date")` and would require `issue["cover_date"]` to be
truthy and falsy at once — and when the cover date is present, it is
decomposed into day, month and year via `utils.parse_date_str`. -/
theorem mapper_cover_date_rule (ctx : ComicApiCtx) (cfg : TalkerConfig)
    (issue : MetIssue) :
    (truthyOptStr issue.cover_date = false →
      (map_comic_issue_to_metadata ctx cfg issue).day = none
      ∧ (map_comic_issue_to_metadata ctx cfg issue).month = none
      ∧ (map_comic_issue_to_metadata ctx cfg issue).year = none)
    ∧ (truthyOptStr issue.cover_date = true →
      ((map_comic_issue_to_metadata ctx cfg issue).day,
        (map_comic_issue_to_metadata ctx cfg issue).month,
        (map_comic_issue_to_metadata ctx cfg issue).year)
        = ctx.parseDateStr (issue.cover_date.getD "")) := by
  constructor
  · intro h
    have hd := mapper_dmy_eq ctx cfg issue
    rw [h] at hd
    simp only [Bool.false_eq_true, if_false] at hd
    rw [Prod.ext_iff] at hd
    obtain ⟨h1, hrest⟩ := hd
    rw [Prod.ext_iff] at hrest
    exact ⟨h1, hrest.1, hrest.2⟩
  · intro h
    have hd := mapper_dmy_eq ctx cfg issue
    rcases hc : issue.cover_date with _ | s
    · rw [hc] at h
      exact absurd h (by simp [truthyOptStr])
    · have hs : (s != "") = true := by
        have h2 := hc ▸ h
        simpa [truthyOptStr] using h2
      rw [hc] at hd
      rw [hd]
      simp [truthyOptStr, hs]

/-- A sample `parse_date_str` behaviour for the concrete evaluations. -/
def sampleDateCtx : ComicApiCtx :=
  { parseDateStr := fun _ => (some 1, some 5, some 1990) }

/-- An issue with no cover date whose series began in 1990. -/
def issueNoCoverDate : MetIssue :=
  { id := 9
    number := "4"
    series := { name := some "Sandman", year_began := some 1990 } }

/-- The same issue with a cover date present. -/
def issueWithCoverDate : MetIssue :=
  { issueNoCoverDate with cover_date := some "1990-05-01" }

/-- C7 witness: at the failing input (cover date absent, series start year
1990) the mapper leaves the year unset instead of falling back to 1990; with
the cover date present, the parsed day/month/year triple is emitted. -/
theorem mapper_cover_date_rule_witness :
    ((map_comic_issue_to_metadata sampleDateCtx {} issueNoCoverDate).year = none
      ∧ (map_comic_issue_to_metadata sampleDateCtx {} issueNoCoverDate).year
          ≠ some 1990)
    ∧ ((map_comic_issue_to_metadata sampleDateCtx {} issueWithCoverDate).day,
        (map_comic_issue_to_metadata sampleDateCtx {} issueWithCoverDate).month,
        (map_comic_issue_to_metadata sampleDateCtx {} issueWithCoverDate).year)
        = (some 1, some 5, some 1990) := by
  refine ⟨⟨?_, ?_⟩, ?_⟩
  · exact ((mapper_cover_date_rule sampleDateCtx {} issueNoCoverDate).1 rfl).2.2
  · rw [((mapper_cover_date_rule sampleDateCtx {} issueNoCoverDate).1 rfl).2.2]
    simp
  · exact ((mapper_cover_date_rule sampleDateCtx {} issueWithCoverDate).2 rfl).trans rfl

/-- A page response of the `issue/` list endpoint: the `count` and `results`
keys of `MetResult[list[MetIssue]]`. -/
structure IssuePage where
  count : Nat := 0
  results : List MetIssue := []
deriving DecidableEq

/-- The `while current_result_count < total_result_count` loop of
`MetronTalker.fetch_issues_in_series` (`src/metron_talker/metron.py` lines
622-634).  Unlike the search loop, `total` here is fixed from the first
response's `count`.  The returned pair is the accumulated issue list and the
number of page requests issued. -/
def issuePagesLoop (getPage : Nat → IssuePage) (total : Nat) :
    Nat → Nat → Nat → List MetIssue → Nat → List MetIssue × Nat
  | 0, _, _, acc, reqs => (acc, reqs)
  | fuel + 1, current, page, acc, reqs =>
    if current < total then
      let resp := getPage (page + 1)
      issuePagesLoop getPage total fuel (current + resp.results.length) (page + 1)
        (acc ++ resp.results) (reqs + 1)
    else (acc, reqs)

/-- The staleness condition of `MetronTalker.fetch_issues_in_series`
(`src/metron_talker/metron.py` lines 589-591):
`cache_series_data is not None and
(len(cached_series_issues_result) == cache_series_data.get("issue_count", -1))`. -/
def issueCacheFresh (cachedSeries : Option MetSeries)
    (cachedIssues : List (MetIssue × Bool)) : Bool :=
  match cachedSeries with
  | some s => (cachedIssues.length : Int) == s.issue_count.getD (-1)
  | none => false

/-- What `fetch_issues_in_series` produces: the mapped records, the number of
`issue/` list page requests issued, and the records written back to the issue
cache by `add_issues_info`. -/
structure FetchIssuesOutcome where
  records : List GenericMetadata
  issueRequests : Nat
  cacheWrites : List MetIssue
deriving DecidableEq

/-- Embedding of `MetronTalker.fetch_issues_in_series`
(`src/metron_talker/metron.py` lines 570-653; the staleness condition of
`MetronTalkerExt._fetch_issues_in_series` in `src/metron/metron.py` lines
231-252 is `len(cached) == series_data.issue_count`, the same comparison).
`cachedIssues` models `cvc.get_series_issues_info` (each entry the parsed
record with its completeness flag) and `cachedSeries` the parsed
`cvc.get_series_info` hit.  When the cache is fresh, the cached entries are
mapped and returned with no request (under `display_variants`, incomplete
entries have their image cleared first); otherwise the `issue/` endpoint is
paginated, the accumulated records are written to the cache, and (under
`display_variants`) images are cleared after the cache write — the source
spells that clearing `issue.image = ""` on a dict, an attribute assignment
modelled here as the intended item assignment — before mapping. -/
def fetch_issues_in_series (ctx : ComicApiCtx) (cfg : TalkerConfig)
    (cachedSeries : Option MetSeries) (cachedIssues : List (MetIssue × Bool))
    (getPage : Nat → IssuePage) (fuel : Nat) : FetchIssuesOutcome :=
  if issueCacheFresh cachedSeries cachedIssues then
    if cfg.display_variants then
      let cacheData := cachedIssues.map (fun p =>
        (if !p.2 then { p.1 with image := some "" } else p.1, p.2))
      { records := cacheData.map (fun p => map_comic_issue_to_metadata ctx cfg p.1)
        issueRequests := 0
        cacheWrites := [] }
    else
      { records := cachedIssues.map (fun p => map_comic_issue_to_metadata ctx cfg p.1)
        issueRequests := 0
        cacheWrites := [] }
  else
    let r1 := getPage 1
    let lr := issuePagesLoop getPage r1.count fuel r1.results.length 1 r1.results 1
    let cleared :=
      if cfg.display_variants then lr.1.map (fun i => { i with image := some "" })
      else lr.1
    { records := cleared.map (map_comic_issue_to_metadata ctx cfg)
      issueRequests := lr.2
      cacheWrites := lr.1 }

/-- The issue pagination loop never loses requests: the final count is at
least the initial one. -/
theorem issuePagesLoop_requests_ge (getPage : Nat → IssuePage) (total : Nat) :
    ∀ (fuel current page : Nat) (acc : List MetIssue) (reqs : Nat),
      reqs ≤ (issuePagesLoop getPage total fuel current page acc reqs).2 := by
  intro fuel
  induction fuel with
  | zero => intro current page acc reqs; exact Nat.le_refl reqs
  | succ n ih =>
    intro current page acc reqs
    rw [issuePagesLoop]
    by_cases h : current < total
    · simp only [h, if_true]
      exact Nat.le_trans (Nat.le_succ reqs) (ih _ _ _ _)
    · simp only [h, if_false]
      exact Nat.le_refl reqs

/-- C4: `fetch_issues_in_series` issues a remote `issue/` list request if and
only if the number of cached issue entries differs from the series' currently
known `issue_count`; when they are equal, the cached entries are mapped and
returned with no issue-list request (incomplete entries get their image
cleared first when `display_variants` is set). -/
theorem fetch_issues_refetch_iff_count_mismatch (ctx : ComicApiCtx)
    (cfg : TalkerConfig) (s : MetSeries) (n : Int)
    (cachedIssues : List (MetIssue × Bool)) (getPage : Nat → IssuePage)
    (fuel : Nat) (hs : s.issue_count = some n) :
    ((fetch_issues_in_series ctx cfg (some s) cachedIssues getPage
          fuel).issueRequests = 0
        ↔ (cachedIssues.length : Int) = n)
    ∧ ((cachedIssues.length : Int) = n →
        (fetch_issues_in_series ctx cfg (some s) cachedIssues getPage
            fuel).records
          = cachedIssues.map (fun p =>
              map_comic_issue_to_metadata ctx cfg
                (if cfg.display_variants && !p.2 then { p.1 with image := some "" }
                 else p.1))) := by
  by_cases hlen : (cachedIssues.length : Int) = n
  · have hfresh : issueCacheFresh (some s) cachedIssues = true := by
      simp [issueCacheFresh, hs, hlen]
    constructor
    · constructor
      · intro _; exact hlen
      · intro _
        simp only [fetch_issues_in_series, hfresh, if_true]
        by_cases hv : cfg.display_variants = true <;> simp [hv]
    · intro _
      simp only [fetch_issues_in_series, hfresh, if_true]
      by_cases hv : cfg.display_variants = true
      · simp only [hv, if_true, List.map_map]
        refine List.map_congr_left ?_
        intro p _
        simp [hv]
      · simp only [hv, if_false]
        have hv2 : cfg.display_variants = false := by
          simpa using hv
        refine List.map_congr_left ?_
        intro p _
        simp [hv2]
  · have hfresh : issueCacheFresh (some s) cachedIssues = false := by
      simp [issueCacheFresh, hs, hlen]
    constructor
    · constructor
      · intro h0
        exfalso
        have hge := issuePagesLoop_requests_ge getPage (getPage 1).count fuel
          (getPage 1).results.length 1 (getPage 1).results 1
        simp only [fetch_issues_in_series, hfresh, Bool.false_eq_true, if_false] at h0
        rw [h0] at hge
        exact Nat.not_succ_le_zero 0 hge
      · intro h; exact absurd h hlen
    · intro h; exact absurd h hlen

/-- A cached series record declaring two issues. -/
def cachedSeriesTwo : MetSeries :=
  { id := some 5, name := some "Hellboy", issue_count := some 2 }

/-- Two cached issue entries (one incomplete, one complete). -/
def cachedIssuePair : List (MetIssue × Bool) :=
  [({ id := 21, number := "1", image := some "http://img/a" }, false),
    ({ id := 22, number := "2", image := some "http://img/b" }, true)]

/-- C4 witness: with two cached issues and a cached `issue_count` of 2, no
issue-list request is made. -/
theorem fetch_issues_refetch_iff_count_mismatch_witness :
    (fetch_issues_in_series {} {} (some cachedSeriesTwo) cachedIssuePair
        (fun _ => ({} : IssuePage)) 5).issueRequests = 0 :=
  (fetch_issues_refetch_iff_count_mismatch {} {} cachedSeriesTwo 2
      cachedIssuePair (fun _ => ({} : IssuePage)) 5 rfl).1.mpr (by decide)

/-- The cached-issue scan of
`MetronTalker.fetch_issues_by_series_issue_num_and_year`
(`src/metron_talker/metron.py` lines 679-698): walk the cached entries in
order; for each, parse it, inject the series id, and if its `number` equals
the requested issue number, clear its image URL and stop (`break`).  The
parsed record is a copy — the cache itself is not modified. -/
def findCachedIssue (sid : Int) (issueNumber : String) :
    List (MetIssue × Bool) → Option MetIssue
  | [] => none
  | (issue, _) :: rest =>
    let issueData := { issue with series := { issue.series with id := some sid } }
    if issueData.number == issueNumber then
      some { issueData with image := some "" }
    else
      findCachedIssue sid issueNumber rest

/-- What `fetch_issues_by_series_issue_num_and_year` produces: the mapped
records, the number of remote `issue/` requests, and the records written to
the issue cache by `add_issues_info` (written before the image is cleared,
so they carry the upstream image URL). -/
structure FetchByNumOutcome where
  results : List GenericMetadata := []
  requests : Nat := 0
  cacheWrites : List MetIssue := []
deriving DecidableEq

/-- One iteration of the `for series_id in series_id_list` loop of
`MetronTalker.fetch_issues_by_series_issue_num_and_year`
(`src/metron_talker/metron.py` lines 655-726): serve the issue from the cache
when a cached entry matches the number (image cleared on the returned copy
only); otherwise query the `issue/` endpoint (the `number`/`cover_year`
parameters are embodied by the `remote` oracle), and on a hit inject the
series id, cache the record (original image intact), clear the image, and map
it.  A response with `count > 0` but no results would raise an `IndexError`
at `results[0]` in the source; it contributes nothing here. -/
def fetchByNumStep (ctx : ComicApiCtx) (cfg : TalkerConfig)
    (cache : Int → List (MetIssue × Bool)) (remote : Int → IssuePage)
    (issueNumber : String) (out : FetchByNumOutcome) (sid : Int) :
    FetchByNumOutcome :=
  match findCachedIssue sid issueNumber (cache sid) with
  | some issueData =>
    { out with results := out.results ++ [map_comic_issue_to_metadata ctx cfg issueData] }
  | none =>
    let resp := remote sid
    if resp.count > 0 then
      match resp.results with
      | first :: _ =>
        let injected := { first with series := { first.series with id := some sid } }
        { results := out.results
            ++ [map_comic_issue_to_metadata ctx cfg { injected with image := some "" }]
          requests := out.requests + 1
          cacheWrites := out.cacheWrites ++ [injected] }
      | [] => { out with requests := out.requests + 1 }
    else { out with requests := out.requests + 1 }

/-- Embedding of `MetronTalker.fetch_issues_by_series_issue_num_and_year`:
fold the per-series step over the requested series ids. -/
def fetch_issues_by_series_issue_num_and_year (ctx : ComicApiCtx)
    (cfg : TalkerConfig) (cache : Int → List (MetIssue × Bool))
    (remote : Int → IssuePage) (seriesIdList : List Int)
    (issueNumber : String) : FetchByNumOutcome :=
  seriesIdList.foldl (fetchByNumStep ctx cfg cache remote issueNumber) {}

/-- The mapper copies the issue's image field into the cover-image field
verbatim (`md._cover_image = issue["image"]`). -/
theorem mapper_cover_image (ctx : ComicApiCtx) (cfg : TalkerConfig)
    (issue : MetIssue) :
    (map_comic_issue_to_metadata ctx cfg issue).cover_image = issue.image := rfl

/-- A cache hit returned by `findCachedIssue` always has its image cleared. -/
theorem findCachedIssue_image (sid : Int) (num : String) :
    ∀ (l : List (MetIssue × Bool)) (i : MetIssue),
      findCachedIssue sid num l = some i → i.image = some "" := by
  intro l
  induction l with
  | nil =>
    intro i h
    exact absurd h (by simp [findCachedIssue])
  | cons p rest ih =>
    intro i h
    rw [findCachedIssue] at h
    by_cases hm : (({ p.1 with series := { p.1.series with id := some sid } }
        : MetIssue).number == num) = true
    · rw [if_pos hm] at h
      cases h
      rfl
    · rw [if_neg (by simp [hm])] at h
      exact ih i h

/-- The C9 invariant: all accumulated records carry an empty cover image, and
every accumulated cache write is a record of some queried series' remote
response with its original image intact and the series id injected. -/
def byNumInvariant (remote : Int → IssuePage) (allIds : List Int)
    (out : FetchByNumOutcome) : Prop :=
  (∀ md ∈ out.results, md.cover_image = some "")
  ∧ (∀ w ∈ out.cacheWrites, ∃ sid, sid ∈ allIds
      ∧ ∃ r, r ∈ (remote sid).results ∧ w.image = r.image ∧ w.series.id = some sid)

/-- One fold step preserves the C9 invariant. -/
theorem fetchByNumStep_preserves (ctx : ComicApiCtx) (cfg : TalkerConfig)
    (cache : Int → List (MetIssue × Bool)) (remote : Int → IssuePage)
    (num : String) (allIds : List Int) (out : FetchByNumOutcome) (sid : Int)
    (hsid : sid ∈ allIds) (hinv : byNumInvariant remote allIds out) :
    byNumInvariant remote allIds
      (fetchByNumStep ctx cfg cache remote num out sid) := by
  obtain ⟨hres, hwr⟩ := hinv
  unfold fetchByNumStep
  cases hf : findCachedIssue sid num (cache sid) with
  | some issueData =>
    refine ⟨?_, ?_⟩
    · intro md hmd
      simp only [List.mem_append, List.mem_singleton] at hmd
      rcases hmd with hmd | hmd
      · exact hres md hmd
      · rw [hmd, mapper_cover_image]
        exact findCachedIssue_image sid num (cache sid) issueData hf
    · intro w hw
      exact hwr w hw
  | none =>
    by_cases hcount : (remote sid).count > 0
    · cases hrs : (remote sid).results with
      | nil =>
        simp only [hcount, if_true, hrs]
        exact ⟨hres, hwr⟩
      | cons first rest =>
        simp only [hcount, if_true, hrs]
        refine ⟨?_, ?_⟩
        · intro md hmd
          simp only [List.mem_append, List.mem_singleton] at hmd
          rcases hmd with hmd | hmd
          · exact hres md hmd
          · rw [hmd, mapper_cover_image]
        · intro w hw
          simp only [List.mem_append, List.mem_singleton] at hw
          rcases hw with hw | hw
          · exact hwr w hw
          · refine ⟨sid, hsid, first, ?_, ?_, ?_⟩
            · rw [hrs]
              exact List.mem_cons_self first rest
            · rw [hw]
            · rw [hw]
    · simp only [hcount, if_false]
      exact ⟨hres, hwr⟩

/-- Folding over a sublist of the queried ids preserves the C9 invariant. -/
theorem fetchByNumFold_preserves (ctx : ComicApiCtx) (cfg : TalkerConfig)
    (cache : Int → List (MetIssue × Bool)) (remote : Int → IssuePage)
    (num : String) (allIds : List Int) :
    ∀ (ids : List Int) (out : FetchByNumOutcome),
      (∀ x ∈ ids, x ∈ allIds) → byNumInvariant remote allIds out →
      byNumInvariant remote allIds
        (ids.foldl (fetchByNumStep ctx cfg cache remote num) out) := by
  intro ids
  induction ids with
  | nil => intro out _ hinv; exact hinv
  | cons sid rest ih =>
    intro out hsub hinv
    rw [List.foldl_cons]
    exact ih _ (fun x hx => hsub x (List.mem_cons_of_mem sid hx))
      (fetchByNumStep_preserves ctx cfg cache remote num allIds out sid
        (hsub sid (List.mem_cons_self sid rest)) hinv)

/-- C9: every metadata record returned by
`fetch_issues_by_series_issue_num_and_year` carries an empty cover-image URL
— the image is cleared before mapping both on the cache path and on the
remote path — while every record written to the cache is a remote-response
record with its original image URL intact (the cache write happens before
the clearing) and the series id injected. -/
theorem fetch_by_num_clears_cover_image (ctx : ComicApiCtx)
    (cfg : TalkerConfig) (cache : Int → List (MetIssue × Bool))
    (remote : Int → IssuePage) (seriesIdList : List Int)
    (issueNumber : String) :
    (∀ md ∈ (fetch_issues_by_series_issue_num_and_year ctx cfg cache remote
        seriesIdList issueNumber).results, md.cover_image = some "")
    ∧ (∀ w ∈ (fetch_issues_by_series_issue_num_and_year ctx cfg cache remote
        seriesIdList issueNumber).cacheWrites, ∃ sid, sid ∈ seriesIdList
        ∧ ∃ r, r ∈ (remote sid).results ∧ w.image = r.image
            ∧ w.series.id = some sid) :=
  fetchByNumFold_preserves ctx cfg cache remote issueNumber seriesIdList
    seriesIdList {} (fun _ hx => hx)
    ⟨fun md hmd => absurd hmd (List.not_mem_nil md),
      fun w hw => absurd hw (List.not_mem_nil w)⟩

/-- A remote oracle returning one issue with a non-empty image URL. -/
def sampleRemote : Int → IssuePage := fun _ =>
  { count := 1
    results := [{ id := 50
                  number := "3"
                  image := some "http://img/c"
                  series := { id := some 1, name := some "S" } }] }

/-- C9 witness: on a concrete remote hit, the returned record has an empty
cover image while the cache write keeps the upstream image URL. -/
theorem fetch_by_num_clears_cover_image_witness :
    ((fetch_issues_by_series_issue_num_and_year {} {} (fun _ => [])
        sampleRemote [7] "3").results.headD {}).cover_image = some ""
    ∧ ((fetch_issues_by_series_issue_num_and_year {} {} (fun _ => [])
        sampleRemote [7] "3").cacheWrites.map MetIssue.image)
        = [some "http://img/c"] := by
  refine ⟨?_, ?_⟩
  · exact (fetch_by_num_clears_cover_image {} {} (fun _ => []) sampleRemote
      [7] "3").1 _ (by decide)
  · rfl

/-- The outcome of `fetch_comic_data`: the returned metadata record plus a
trace of the delegated sub-operation calls (all network and cache traffic of
the operation lives in the delegates). -/
structure FetchComicOutcome where
  md : GenericMetadata := {}
  byIssueIdCalls : List String := []
  byNumberCalls : List (Int × String) := []
deriving DecidableEq

/-- Embedding of `MetronTalker.fetch_comic_data`
(`src/metron_talker/metron.py` lines 555-568; `MetronTalkerExt.fetch_comic_data`
of `src/metron.py` lines 385-394 is the same dispatch):
`comic_data = GenericMetadata()`; when `issue_id` is truthy delegate to
`_fetch_issue_data_by_issue_id(issue_id)`; elif both `issue_number` and
`series_id` are truthy delegate to
`_fetch_issue_data(int(series_id), issue_number)`; otherwise return the empty
record untouched.  The delegate behaviours are passed in as functions. -/
def fetch_comic_data (fetchByIssueId : String → GenericMetadata)
    (fetchByNumber : Int → String → GenericMetadata)
    (issueId : Option String) (seriesId : Option String)
    (issueNumber : String) : FetchComicOutcome :=
  if truthyOptStr issueId then
    { md := fetchByIssueId (issueId.getD "")
      byIssueIdCalls := [issueId.getD ""]
      byNumberCalls := [] }
  else if issueNumber != "" && truthyOptStr seriesId then
    let sid := ((seriesId.getD "").toInt?).getD 0
    { md := fetchByNumber sid issueNumber
      byIssueIdCalls := []
      byNumberCalls := [(sid, issueNumber)] }
  else
    {}

/-- C10: a call with no (truthy) issue id and without both a series id and a
non-empty issue number returns the empty `GenericMetadata()` record and
performs no delegated call — and hence no network request and no cache read
or write, since the function body touches nothing else. -/
theorem fetch_comic_data_empty_when_unidentified
    (fetchByIssueId : String → GenericMetadata)
    (fetchByNumber : Int → String → GenericMetadata)
    (issueId seriesId : Option String) (issueNumber : String)
    (hid : truthyOptStr issueId = false)
    (hnum : issueNumber = "" ∨ truthyOptStr seriesId = false) :
    fetch_comic_data fetchByIssueId fetchByNumber issueId seriesId issueNumber
      = ({} : FetchComicOutcome) := by
  unfold fetch_comic_data
  rw [hid]
  simp only [Bool.false_eq_true, if_false]
  have hcond : (issueNumber != "" && truthyOptStr seriesId) = false := by
    rcases hnum with h | h
    · simp [h]
    · simp [h]
  rw [hcond]
  simp

/-- C10 witness: a call with no issue id, a series id but an empty issue
number returns the empty record with no delegated call. -/
theorem fetch_comic_data_empty_when_unidentified_witness :
    fetch_comic_data (fun _ => { series := some "X" })
        (fun _ _ => { series := some "Y" }) none (some "12") ""
      = ({} : FetchComicOutcome) :=
  fetch_comic_data_empty_when_unidentified _ _ none (some "12") "" rfl
    (Or.inl rfl)

end Metron
